import Mathlib

/-!
Verification of the trading-dashboard client in
`bpsalgoAi/app/static/js/dashboard.js` (a file concatenating three
revisions of the same dashboard script).  The JavaScript is shallowly
embedded: DOM containers become lists of structured views, timers become
explicit event steps, and JSON values become Lean structures.  Numeric
string fields are modelled post-`parseFloat` as `Option ℚ` (`none` for a
missing / falsy / unparsable field, `some q` for a field that parses to
the rational `q`).
-/

/-- A log entry appended by `addLog` (dashboard.js:518-531, 2478-2491).
The rendered timestamp is presentation detail and is not modelled; the
`message` and `type` arguments are kept. -/
structure LogEntry where
  message : String
  type : String
deriving DecidableEq

/-- One pass of the trimming loop of `addLog`
(`while (activityLog.children.length > 50) removeChild(lastChild)`),
run with explicit fuel.  Each iteration drops the last child while more
than 50 remain. -/
def trimLogGo : Nat → List LogEntry → List LogEntry
  | 0, l => l
  | fuel + 1, l => if l.length > 50 then trimLogGo fuel l.dropLast else l

/-- The trimming loop of `addLog`; fuel `l.length` suffices because every
iteration removes one element. -/
def trimLog (l : List LogEntry) : List LogEntry :=
  trimLogGo l.length l

/-- `addLog` (dashboard.js:518-531 and 2478-2491): insert the new entry
before the first child, then trim from the back while more than 50 entries
remain.  The activity log is the list of entries, newest first. -/
def addLog (entry : LogEntry) (activityLog : List LogEntry) : List LogEntry :=
  trimLog (entry :: activityLog)

/-- A quote object from a market-data payload, as consumed by
`displayMarketData` (dashboard.js:394-417).  `price` and `change` model
the `parseFloat` results of the raw JSON fields (`none` = the field is
missing or does not parse). -/
structure MarketSymbol where
  symbol : String
  price : Option ℚ
  change : Option ℚ
deriving DecidableEq

/-- `const change = parseFloat(symbol.change) || 0;` — an unparsable
(`NaN`, falsy) change is coerced to `0`. -/
def changeVal (s : MarketSymbol) : ℚ :=
  s.change.getD 0

/-- Two-digit zero-padded decimal rendering of `n % 100` — the fractional
part produced by `Number.prototype.toFixed(2)`. -/
def pad2 (n : Nat) : String :=
  String.mk [Nat.digitChar (n / 10 % 10), Nat.digitChar (n % 10)]

/-- Floor of a rational, computed by floor division of numerator by
denominator (the denominator of a `ℚ` is positive). -/
def ratFloor (q : ℚ) : Int :=
  Int.fdiv q.num (Int.ofNat q.den)

/-- Model of `Number.prototype.toFixed(2)` on an exactly-represented
value: round `|q|` to the nearest hundredth (ties away from zero), print
sign, integer part, a dot and two fractional digits. -/
def fixed2 (q : ℚ) : String :=
  let n : Nat := (ratFloor (|q| * 100 + 1 / 2)).toNat
  (if q < 0 then "-" else "") ++ toString (n / 100) ++ "." ++ pad2 (n % 100)

/-- The rendered `market-item` div of `displayMarketData`
(dashboard.js:406-410): symbol line, `$`-prefixed price formatted with
`toFixed(2)`, and the change line carrying the sign-dependent CSS class
and a `+` prefix for positive changes. -/
structure MarketItemView where
  symbolText : String
  priceText : String
  changeClass : String
  changeText : String
deriving DecidableEq

/-- Build one `market-item` element (dashboard.js:398-412).
`parseFloat(symbol.price)` of an unparsable price is `NaN`, rendered by
`toFixed` as the text `NaN`. -/
def renderMarketItem (s : MarketSymbol) : MarketItemView :=
  let change := changeVal s
  let changeClass := if change > 0 then "positive" else if change < 0 then "negative" else ""
  let changeSign := if change > 0 then "+" else ""
  { symbolText := s.symbol
    priceText := "$" ++ (match s.price with
      | some q => fixed2 q
      | none => "NaN")
    changeClass := changeClass
    changeText := changeSign ++ fixed2 change ++ "%" }

/-- Contents of the `marketData` container: either a list of rendered
`market-item` divs, or the "No market data available" placeholder. -/
inductive MarketView where
  | items (l : List MarketItemView)
  | noData
deriving DecidableEq

/-- `marketData.appendChild(item)` on a container currently holding a
list of items. -/
def appendItem : MarketView → MarketItemView → MarketView
  | .items l, x => .items (l ++ [x])
  | .noData, _ => .noData

/-- A market-data payload (`data.data`): `symbols` is `some l` when the
`symbols` property exists and is an array. -/
structure MarketPayload where
  symbols : Option (List MarketSymbol)
deriving DecidableEq

/-- `displayMarketData` (dashboard.js:394-417): unconditionally clear the
container (`marketData.innerHTML = ''`), then either append one rendered
item per symbol or set the placeholder.  The previous contents `prev` are
discarded by the initial clear. -/
def displayMarketData (data : Option MarketPayload) (prev : MarketView) : MarketView :=
  let cleared : MarketView := .items []
  match data with
  | some payload =>
    match payload.symbols with
    | some l => l.foldl (fun v s => appendItem v (renderMarketItem s)) cleared
    | none => .noData
  | none => .noData

/-- The parsed JSON body of the `/api/market/live` response as used by
`refreshMarketData` (dashboard.js:362-389). -/
structure ApiResponse where
  success : Bool
  data : Option MarketPayload
  error : Option String
deriving DecidableEq

/-- The pieces of page state touched by `refreshMarketData`. -/
structure UiState where
  marketView : MarketView
  activityLog : List LogEntry
  refreshDataBtnDisabled : Bool
deriving DecidableEq

/-- `refreshMarketData` (dashboard.js:362-389) after the fetch resolved to
`resp`: disable the button, log the fetch, then on `success` render the
payload and log success; otherwise log the warning line and, if the
response still carries a `data` payload, render it anyway.  Finally
re-enable the button. -/
def refreshMarketData (resp : ApiResponse) (ui : UiState) : UiState :=
  let ui1 := { ui with refreshDataBtnDisabled := true }
  let ui2 := { ui1 with activityLog := addLog ⟨"Fetching live market data...", "info"⟩ ui1.activityLog }
  let ui3 :=
    if resp.success then
      let uiA := { ui2 with marketView := displayMarketData resp.data ui2.marketView }
      { uiA with activityLog := addLog ⟨"✅ Market data loaded", "success"⟩ uiA.activityLog }
    else
      let warnEntry : LogEntry :=
        ⟨"⚠️ Failed to load market data: " ++ resp.error.getD "Unknown error", "warning"⟩
      let uiB := { ui2 with activityLog := addLog warnEntry ui2.activityLog }
      match resp.data with
      | some p => { uiB with marketView := displayMarketData (some p) uiB.marketView }
      | none => uiB
  { ui3 with refreshDataBtnDisabled := false }

/-- A watchlist item as consumed by `displayWatchlist`
(dashboard.js:805-878 and 1728-1803): the symbol string plus the
`parseFloat` values of `change` / `pchange` (`none` = field missing or
falsy).  The further display-only cells (price, open, close, high, low,
volume) do not affect which symbols are shown or their order and are not
modelled. -/
structure WatchlistItem where
  symbol : String
  change : Option ℚ
  pchange : Option ℚ
deriving DecidableEq

/-- An element of the `items` array passed to `displayWatchlist`: either a
plain symbol string or a quote object. -/
inductive WatchlistEntry where
  | str (s : String)
  | obj (it : WatchlistItem)
deriving DecidableEq

/-- The sort key of `displayWatchlist`'s comparator:
`parseFloat(a.change || a.pchange || 0)`.  A plain string entry has
neither property, so its key is `0`. -/
def changeKey : WatchlistEntry → ℚ
  | .str _ => 0
  | .obj it => (it.change.orElse fun _ => it.pchange).getD 0

/-- The comparator ordering of `displayWatchlist`
(`(a, b) => ca - cb`, i.e. ascending by parsed change). -/
def wlLe (a b : WatchlistEntry) : Prop :=
  changeKey a ≤ changeKey b

instance : DecidableRel wlLe :=
  fun a b => inferInstanceAs (Decidable (changeKey a ≤ changeKey b))

instance : IsTotal WatchlistEntry wlLe :=
  ⟨fun a b => le_total (changeKey a) (changeKey b)⟩

instance : IsTrans WatchlistEntry wlLe :=
  ⟨fun _ _ _ hab hbc => le_trans hab hbc⟩

/-- `items.slice().sort(comparator)` (dashboard.js:813-817): a stable sort
of a copy of the items, ascending by parsed change. -/
def sortWatchlist (items : List WatchlistEntry) : List WatchlistEntry :=
  List.insertionSort wlLe items

/-- The symbol cell a watchlist entry contributes to the rendered table
(dashboard.js:838-875): a string item is rendered as-is; an object item is
rendered only when `item.symbol` is truthy (non-empty); anything else adds
no row. -/
def rowSymbol : WatchlistEntry → Option String
  | .str s => some s
  | .obj it => if it.symbol = "" then none else some it.symbol

/-- `displayWatchlist` (dashboard.js:805-878, 1728-1803), restricted to
the sequence of symbols shown in the rendered table, in row order. -/
def displayWatchlist (items : List WatchlistEntry) : List String :=
  (sortWatchlist items).filterMap rowSymbol

/-- Lexicographic comparison of character lists by code point — the
"alphabetical order" the spec asserts for the displayed symbols. -/
def alphaLeB : List Char → List Char → Bool
  | [], _ => true
  | _ :: _, [] => false
  | a :: as, b :: bs =>
    if a.val < b.val then true
    else if b.val < a.val then false
    else alphaLeB as bs

/-- Alphabetical order on symbol strings (code-point lexicographic). -/
def alphaLe (a b : String) : Prop :=
  alphaLeB a.data b.data = true

instance : DecidableRel alphaLe :=
  fun a b => inferInstanceAs (Decidable (alphaLeB a.data b.data = true))

/-- An HTTP request issued by the dashboard, reduced to the path and the
list of `symbols=` query parameters it carries. -/
structure HttpRequest where
  path : String
  symbolsQuery : List String
deriving DecidableEq

/-- `const API_BASE = '/api';` (dashboard.js:7). -/
def API_BASE : String := "/api"

/-- The request of `refreshWatchlist` (dashboard.js:787):
`fetch(`API_BASE/watchlist`)` — no symbol parameters. -/
def refreshWatchlistRequest : HttpRequest :=
  ⟨API_BASE ++ "/watchlist", []⟩

/-- The request of `fetchWatchlistTab` (dashboard.js:1849-1853):
`/api/watchlist/tab/<tab>` — no symbol parameters. -/
def fetchWatchlistTabRequest (tab : String) : HttpRequest :=
  if tab = "user" then ⟨API_BASE ++ "/watchlist/tab/user", []⟩
  else ⟨API_BASE ++ "/watchlist/tab/" ++ tab, []⟩

/-- The request of `fetchAlgoWatchlist` (dashboard.js:2069):
`fetch('/api/algo/watchlist')` — no symbol parameters. -/
def fetchAlgoWatchlistRequest : HttpRequest :=
  ⟨"/api/algo/watchlist", []⟩

/-- Modelled from the spec: the fixed default symbol list
"NIFTY50, BANKNIFTY, FINNIFTY, GIFTNIFTY, SENSEX" that the spec says is
merged with browser-stored user symbols before each quote fetch.  No code
under src builds this list; it appears only in repository documentation of
a dashboard revision not included in the source set. -/
def defaultSymbols : List String :=
  ["NIFTY50", "BANKNIFTY", "FINNIFTY", "GIFTNIFTY", "SENSEX"]

/-- First-occurrence deduplication, the order `[...new Set(l)]` keeps. -/
def dedupFirstAux (seen : List String) : List String → List String
  | [] => []
  | x :: xs =>
    if x ∈ seen then dedupFirstAux seen xs
    else x :: dedupFirstAux (x :: seen) xs

/-- `[...new Set(l)]`. -/
def dedupFirst (l : List String) : List String :=
  dedupFirstAux [] l

/-- Modelled from the spec: the merged (union) symbol list
`[...new Set([...defaultSymbols, ...customWatchlistSymbols])]` the spec
says is used before each quote fetch. -/
def specMergedSymbols (stored : List String) : List String :=
  dedupFirst (defaultSymbols ++ stored)

/-- Modelled from the spec: the quote fetch the spec describes,
`/api/market/live` carrying one `symbols=` parameter per merged symbol. -/
def specQuoteFetchRequest (stored : List String) : HttpRequest :=
  ⟨API_BASE ++ "/market/live", specMergedSymbols stored⟩

/-- `const MAX_RECONNECT_ATTEMPTS = 6;` (dashboard.js:537, 2497). -/
def MAX_RECONNECT_ATTEMPTS : Nat := 6

/-- `attemptReconnect` (dashboard.js:2571-2582; the core of 880-896 is
identical): given the current `reconnectAttempts` counter, either give up
(`none`, once the maximum is reached) or schedule the next `connectWebSocket`
after `Math.min(30000, 1000 * Math.pow(2, reconnectAttempts))` ms and
increment the counter; the result is `some (delay, newCounter)`. -/
def attemptReconnect (reconnectAttempts : Nat) : Option (Nat × Nat) :=
  if reconnectAttempts ≥ MAX_RECONNECT_ATTEMPTS then none
  else some (min 30000 (1000 * 2 ^ reconnectAttempts), reconnectAttempts + 1)

/-- The delays of a whole reconnection sequence: iterate `attemptReconnect`
from the given counter until it gives up (the counter is `0` at the start
of a sequence, having been reset by `onopen`). -/
def reconnectRun (fuel : Nat) (reconnectAttempts : Nat) : List Nat :=
  match fuel with
  | 0 => []
  | fuel + 1 =>
    match attemptReconnect reconnectAttempts with
    | none => []
    | some (delay, next) => delay :: reconnectRun fuel next

/-- `WebSocket.CONNECTING` readyState constant. -/
def WebSocket_CONNECTING : Nat := 0

/-- `WebSocket.OPEN` readyState constant. -/
def WebSocket_OPEN : Nat := 1

/-- `WebSocket.CLOSING` readyState constant. -/
def WebSocket_CLOSING : Nat := 2

/-- `WebSocket.CLOSED` readyState constant. -/
def WebSocket_CLOSED : Nat := 3

/-- The module-level `marketSocket` variable: `none` models `null`, and
`some rs` a socket object whose `readyState` is `rs`. -/
structure WsGlobals where
  marketSocket : Option Nat
deriving DecidableEq

/-- `connectWebSocket(url)` (dashboard.js:659-664 guard, 2518-2527), as a
function of the globals, returning the new globals and the number of
WebSocket objects constructed during the call: return unchanged on a falsy
url or when a socket already exists in the OPEN or CONNECTING state;
otherwise construct one new socket (readyState CONNECTING). -/
def connectWebSocket (url : Option String) (g : WsGlobals) : WsGlobals × Nat :=
  match url with
  | none => (g, 0)
  | some _ =>
    match g.marketSocket with
    | some rs =>
      if rs = WebSocket_OPEN ∨ rs = WebSocket_CONNECTING then (g, 0)
      else ({ marketSocket := some WebSocket_CONNECTING }, 1)
    | none => ({ marketSocket := some WebSocket_CONNECTING }, 1)

/-- The `/api/config` body consumed by `initWebSocketIfConfigured`. -/
structure WsConfig where
  ws_endpoint : Option String
  access_token_valid : Bool
deriving DecidableEq

/-- `const wsUrl = cfg.ws_endpoint || null;` — an absent or empty endpoint
becomes `null`. -/
def wsUrlOf (cfg : WsConfig) : Option String :=
  match cfg.ws_endpoint with
  | some s => if s = "" then none else some s
  | none => none

/-- The externally visible actions `initWebSocketIfConfigured` can take. -/
inductive WsUiAction where
  | logA (entry : LogEntry)
  | statusA (state : String)
  | closeWsA
  | connectA (url : String)
deriving DecidableEq

/-- `initWebSocketIfConfigured`, the copy at dashboard.js:540-579
(duplicated verbatim at 1468-1507), after the config fetch resolved to
`cfg`, as the sequence of actions it performs.  `enabled` is
`wsToggle ? wsToggle.checked : true`, the user's WebSocket preference.
An invalid token blocks and closes; a disabled toggle only reports the
disabled status; otherwise a present url is connected and a missing url
logs, reports disconnected and closes.  `console.log`/`console.warn`
debug output is not modelled. -/
def initWebSocketIfConfigured (cfg : WsConfig) (enabled : Bool) : List WsUiAction :=
  let wsUrl := wsUrlOf cfg
  if cfg.access_token_valid = false then
    [.logA ⟨"WebSocket blocked: OTP authentication required", "warning"⟩,
     .statusA "disconnected", .closeWsA]
  else if enabled = false then
    [.statusA "disabled"]
  else
    match wsUrl with
    | some u => [.connectA u]
    | none =>
      [.logA ⟨"WebSocket unavailable: token=valid, url=no", "warning"⟩,
       .statusA "disconnected", .closeWsA]

/-- `initWebSocketIfConfigured`, the third revision's copy at
dashboard.js:2500-2516: `if (wsUrl && tokenValid) connectWebSocket(wsUrl);
else { console.warn(...); closeWebSocket(); }`.  This copy consults no
user toggle, never calls any status-reporting function (no
`updateWsStatus` exists in that revision) and adds no log entry; on an
invalid token or missing endpoint its only modelled action is the
unconditional close.  `console.warn` debug output is not modelled. -/
def initWebSocketIfConfiguredV3 (cfg : WsConfig) : List WsUiAction :=
  match wsUrlOf cfg with
  | some u => if cfg.access_token_valid then [.connectA u] else [.closeWsA]
  | none => [.closeWsA]

/-- The heartbeat timer state of `connectWebSocket`
(dashboard.js:685-709): whether the 20s ping interval is installed,
the absolute time at which the pending 30s silence check fires (if one is
pending), and `lastMessageTime`. -/
structure HbState where
  intervalOn : Bool
  checkAt : Option Nat
  lastMessageTime : Nat
deriving DecidableEq

/-- Observable actions of the heartbeat machinery. -/
inductive HbAction where
  | ping
  | closeSocket
deriving DecidableEq

/-- Timer and socket events delivered to the heartbeat handlers, each
carrying the current `Date.now()` where the handler reads it. -/
inductive HbEvent where
  | tick (t : Nat)
  | check (t : Nat)
  | message (t : Nat)
  | socketClosed
deriving DecidableEq

/-- One heartbeat event step (dashboard.js:690-709, 722-723, 754-760):
a tick of the 20s interval sends a ping and (re)schedules the silence
check 30000 ms later (`clearTimeout` then `setTimeout`, so at most one
check is pending); a firing check closes the socket iff more than 30000 ms
passed since the last message; any received message refreshes
`lastMessageTime`; `onclose` runs `stopHeartbeat`, clearing both timers. -/
def heartbeatStep (s : HbState) : HbEvent → HbState × List HbAction
  | .tick t =>
    if s.intervalOn then ({ s with checkAt := some (t + 30000) }, [.ping])
    else (s, [])
  | .check t =>
    if s.checkAt = some t then
      ({ s with checkAt := none },
       if t - s.lastMessageTime > 30000 then [.closeSocket] else [])
    else (s, [])
  | .message t => ({ s with lastMessageTime := t }, [])
  | .socketClosed => ({ s with intervalOn := false, checkAt := none }, [])

/-- The firing times of `setInterval(fn, 20000)` started at `t0`
(dashboard.js:692-703): the k-th ping is sent at `t0 + 20000 * (k+1)`. -/
def hbTickTime (t0 k : Nat) : Nat :=
  t0 + 20000 * (k + 1)

theorem trimLogGo_eq_take (fuel : Nat) :
    ∀ l : List LogEntry, l.length ≤ 50 + fuel → trimLogGo fuel l = l.take 50 := by
  induction fuel with
  | zero =>
    intro l h
    rw [trimLogGo]
    exact (List.take_of_length_le (by omega)).symm
  | succ fuel ih =>
    intro l h
    rw [trimLogGo]
    by_cases hl : l.length > 50
    · rw [if_pos hl, ih l.dropLast (by rw [List.length_dropLast]; omega)]
      rw [List.dropLast_eq_take, List.take_take, Nat.min_eq_left (by omega)]
    · rw [if_neg hl]
      exact (List.take_of_length_le (by omega)).symm

theorem trimLog_eq_take (l : List LogEntry) : trimLog l = l.take 50 :=
  trimLogGo_eq_take l.length l (by omega)

theorem foldl_appendItem :
    ∀ (l : List MarketSymbol) (acc : List MarketItemView),
      l.foldl (fun v s => appendItem v (renderMarketItem s)) (MarketView.items acc) =
        MarketView.items (acc ++ l.map renderMarketItem)
  | [], acc => by simp
  | s :: rest, acc => by
    rw [List.foldl_cons,
      show appendItem (MarketView.items acc) (renderMarketItem s) =
        MarketView.items (acc ++ [renderMarketItem s]) from rfl,
      foldl_appendItem rest (acc ++ [renderMarketItem s])]
    simp

theorem specMergedSymbols_ne_nil (stored : List String) : specMergedSymbols stored ≠ [] := by
  simp [specMergedSymbols, defaultSymbols, dedupFirst, dedupFirstAux]

theorem addLog_head (e : LogEntry) (l : List LogEntry) : (addLog e l).head? = some e := by
  rw [show addLog e l = (e :: l).take 50 from trimLog_eq_take (e :: l),
    show (50 : Nat) = 49 + 1 from rfl, List.take_succ_cons]
  rfl

theorem pad2_length (n : Nat) : (pad2 n).length = 2 := rfl

/-- C1: in every reconnection sequence the delay before the n-th attempt
(n from 0, the counter having been reset on open) is
`min(30000, 1000 * 2^n)` ms, no attempt is scheduled once 6 have been
made, and a full sequence therefore schedules exactly the delays
1000, 2000, 4000, 8000, 16000, 30000. -/
theorem attemptReconnect_backoff_spec :
    (∀ n, n < MAX_RECONNECT_ATTEMPTS →
      attemptReconnect n = some (min 30000 (1000 * 2 ^ n), n + 1)) ∧
    (∀ n, MAX_RECONNECT_ATTEMPTS ≤ n → attemptReconnect n = none) ∧
    reconnectRun 100 0 = [1000, 2000, 4000, 8000, 16000, 30000] := by
  refine ⟨?_, ?_, by decide⟩
  · intro n h
    rw [attemptReconnect, if_neg (by omega)]
  · intro n h
    rw [attemptReconnect, if_pos h]

theorem attemptReconnect_backoff_spec_witness :
    attemptReconnect 3 = some (8000, 4) ∧ attemptReconnect 6 = none :=
  ⟨(attemptReconnect_backoff_spec.1 3 (by decide)).trans (by decide),
   attemptReconnect_backoff_spec.2.1 6 (by decide)⟩

/-- C8: after every `addLog` call the activity log has at most 50 entries,
the new entry is first, and everything dropped was removed from the back
(the input, newest first, is the output followed by the removed tail). -/
theorem addLog_bounded_newest_first (e : LogEntry) (l : List LogEntry) :
    (addLog e l).length ≤ 50 ∧
    (addLog e l).head? = some e ∧
    ∃ removed, e :: l = addLog e l ++ removed := by
  have h : addLog e l = (e :: l).take 50 := trimLog_eq_take (e :: l)
  refine ⟨?_, ?_, ?_⟩
  · rw [h, List.length_take]
    exact min_le_left _ _
  · rw [h, show (50 : Nat) = 49 + 1 from rfl, List.take_succ_cons]
    rfl
  · exact ⟨(e :: l).drop 50, by rw [h, List.take_append_drop]⟩

/-- C2 counterexample: the requests actually issued by the watchlist
refresh loop target fixed watchlist endpoints and carry an empty symbols
query, while the spec-described quote fetch — even with no stored user
symbols at all — targets /api/market/live carrying the five default
symbols.  The two therefore differ at this concrete input. -/
theorem watchlist_refresh_no_merge_cex :
    fetchAlgoWatchlistRequest.path = "/api/algo/watchlist" ∧
    fetchAlgoWatchlistRequest.symbolsQuery = [] ∧
    refreshWatchlistRequest.path = "/api/watchlist" ∧
    refreshWatchlistRequest.symbolsQuery = [] ∧
    (fetchWatchlistTabRequest "user").symbolsQuery = [] ∧
    (specQuoteFetchRequest []).path = "/api/market/live" ∧
    (specQuoteFetchRequest []).symbolsQuery =
      ["NIFTY50", "BANKNIFTY", "FINNIFTY", "GIFTNIFTY", "SENSEX"] := by
  decide

/-- C2 amended: the watchlist-refresh loop builds no client-side symbol
list: each of its fetches (`/api/watchlist`, `/api/watchlist/tab/<tab>`,
`/api/algo/watchlist`) carries an empty symbols query, and none of them
equals the spec-described quote fetch of the default list merged with any
browser-stored user symbols. -/
theorem watchlist_refresh_requests_no_symbol_list (tab : String) (stored : List String) :
    refreshWatchlistRequest.symbolsQuery = [] ∧
    (fetchWatchlistTabRequest tab).symbolsQuery = [] ∧
    fetchAlgoWatchlistRequest.symbolsQuery = [] ∧
    fetchWatchlistTabRequest tab ≠ specQuoteFetchRequest stored := by
  have htab : (fetchWatchlistTabRequest tab).symbolsQuery = [] := by
    unfold fetchWatchlistTabRequest
    split <;> rfl
  refine ⟨rfl, htab, rfl, ?_⟩
  intro h
  have h2 := congrArg HttpRequest.symbolsQuery h
  rw [htab] at h2
  exact specMergedSymbols_ne_nil stored h2.symm

/-- C3 counterexample: `displayWatchlist` orders rows by parsed change
ascending, not alphabetically, and neither deduplicates nor
case-normalizes: three items with changes 2, -1 and 5 render as
axisbank, BANKNIFTY, axisbank — the symbol axisbank is shown twice, the
lower case is preserved, and the first shown symbol is not alphabetically
at or before the second (`alphaLeB` evaluates to false on the pair), so
the displayed sequence is neither unique nor alphabetically sorted. -/
theorem displayWatchlist_not_alphabetical_cex :
    displayWatchlist
        [WatchlistEntry.obj ⟨"BANKNIFTY", some 2, none⟩,
         WatchlistEntry.obj ⟨"axisbank", some (-1), none⟩,
         WatchlistEntry.obj ⟨"axisbank", some 5, none⟩] =
      ["axisbank", "BANKNIFTY", "axisbank"] ∧
    (displayWatchlist
        [WatchlistEntry.obj ⟨"BANKNIFTY", some 2, none⟩,
         WatchlistEntry.obj ⟨"axisbank", some (-1), none⟩,
         WatchlistEntry.obj ⟨"axisbank", some 5, none⟩]).count "axisbank" = 2 ∧
    alphaLeB "axisbank".data "BANKNIFTY".data = false := by
  decide

/-- C3 amended: `displayWatchlist` renders the items sorted by parsed
percent change ascending (a stable sort, a permutation of the input), and
shows each input symbol verbatim — no dedup, no case normalization, no
alphabetical ordering. -/
theorem displayWatchlist_sorted_by_change (items : List WatchlistEntry) :
    List.Sorted wlLe (sortWatchlist items) ∧
    (sortWatchlist items).Perm items ∧
    displayWatchlist items = (sortWatchlist items).filterMap rowSymbol ∧
    (∀ s, s ∈ displayWatchlist items → ∃ e, e ∈ items ∧ rowSymbol e = some s) := by
  refine ⟨List.sorted_insertionSort wlLe items, List.perm_insertionSort wlLe items, rfl, ?_⟩
  intro s hs
  obtain ⟨e, he, hesym⟩ := List.mem_filterMap.mp hs
  exact ⟨e, (List.perm_insertionSort wlLe items).mem_iff.mp he, hesym⟩

theorem displayWatchlist_sorted_by_change_witness :
    ∃ e, e ∈ [WatchlistEntry.obj ⟨"NIFTY50", some 1, none⟩] ∧ rowSymbol e = some "NIFTY50" :=
  (displayWatchlist_sorted_by_change
    [WatchlistEntry.obj ⟨"NIFTY50", some 1, none⟩]).2.2.2 "NIFTY50" (by decide)

/-- C5: the market table rendered by `displayMarketData` is a function of
the payload alone — the container is cleared before anything is appended,
so any two previous contents yield the same result, and a well-formed
payload renders exactly its symbols' items. -/
theorem displayMarketData_overwrites_previous :
    (∀ d p1 p2, displayMarketData d p1 = displayMarketData d p2) ∧
    (∀ (l : List MarketSymbol) (prev : MarketView),
      displayMarketData (some ⟨some l⟩) prev = MarketView.items (l.map renderMarketItem)) := by
  constructor
  · intro d p1 p2
    rfl
  · intro l prev
    show l.foldl (fun v s => appendItem v (renderMarketItem s)) (MarketView.items []) = _
    rw [foldl_appendItem l []]
    simp

/-- C4: when the market-data fetch resolves with `success: false`,
`refreshMarketData` logs a warning whose message starts with
"⚠️ Failed to load market data", and if the response still carries a data
payload, the final market table is exactly that payload's rendering — the
payload is rendered, not rendered-then-cleared or dropped. -/
theorem refreshMarketData_failure_renders_payload (resp : ApiResponse) (ui : UiState)
    (hfail : resp.success = false) :
    (∃ e rest, (refreshMarketData resp ui).activityLog.head? = some e ∧
      e.type = "warning" ∧
      e.message = "⚠️ Failed to load market data" ++ rest) ∧
    (∀ p, resp.data = some p →
      (refreshMarketData resp ui).marketView = displayMarketData (some p) ui.marketView) := by
  obtain ⟨success, data, error⟩ := resp
  simp only at hfail
  subst hfail
  constructor
  · refine ⟨⟨"⚠️ Failed to load market data: " ++ error.getD "Unknown error", "warning"⟩,
      ": " ++ error.getD "Unknown error", ?_, rfl, ?_⟩
    · cases data <;> simp [refreshMarketData, addLog_head]
    · have hlit : ("⚠️ Failed to load market data" ++ ": " : String) =
          "⚠️ Failed to load market data: " := by decide
      rw [← String.append_assoc, hlit]
  · intro p hp
    simp only at hp
    subst hp
    simp [refreshMarketData]

theorem refreshMarketData_failure_renders_payload_witness :
    (∃ e rest,
      (refreshMarketData ⟨false, some ⟨some []⟩, some "boom"⟩
          ⟨MarketView.noData, [], false⟩).activityLog.head? = some e ∧
      e.type = "warning" ∧
      e.message = "⚠️ Failed to load market data" ++ rest) ∧
    (refreshMarketData ⟨false, some ⟨some []⟩, some "boom"⟩
        ⟨MarketView.noData, [], false⟩).marketView =
      displayMarketData (some ⟨some []⟩) MarketView.noData := by
  have h := refreshMarketData_failure_renders_payload ⟨false, some ⟨some []⟩, some "boom"⟩
    ⟨MarketView.noData, [], false⟩ rfl
  exact ⟨h.1, h.2 ⟨some []⟩ rfl⟩

/-- C7: every item rendered by `displayMarketData` shows the item's
symbol; a change parsed greater than 0 gets the class "positive" and a "+"
prefix, a change parsed less than 0 gets the class "negative", and a zero
or unparsable change gets neither class; a parsed price is formatted with
exactly two digits after the decimal point. -/
theorem renderMarketItem_format_spec (s : MarketSymbol) :
    (renderMarketItem s).symbolText = s.symbol ∧
    ((renderMarketItem s).changeClass = "positive" ↔ 0 < changeVal s) ∧
    ((renderMarketItem s).changeClass = "negative" ↔ changeVal s < 0) ∧
    (changeVal s = 0 → (renderMarketItem s).changeClass = "") ∧
    (0 < changeVal s → ∃ r, (renderMarketItem s).changeText = "+" ++ r) ∧
    (∀ q, s.price = some q → ∃ intPart frac,
      (renderMarketItem s).priceText = "$" ++ intPart ++ "." ++ frac ∧ frac.length = 2) := by
  refine ⟨rfl, ?_, ?_, ?_, ?_, ?_⟩
  · rcases lt_trichotomy (changeVal s) 0 with h | h | h
    · simp [renderMarketItem, h, lt_asymm h]
    · simp [renderMarketItem, h]
    · simp [renderMarketItem, h]
  · rcases lt_trichotomy (changeVal s) 0 with h | h | h
    · simp [renderMarketItem, h, lt_asymm h]
    · simp [renderMarketItem, h]
    · simp [renderMarketItem, h, lt_asymm h]
  · intro h
    simp [renderMarketItem, h]
  · intro h
    refine ⟨fixed2 (changeVal s) ++ "%", ?_⟩
    simp [renderMarketItem, h]
    rw [String.append_assoc]
  · intro q hq
    refine ⟨(if q < 0 then "-" else "") ++
        toString ((ratFloor (|q| * 100 + 1 / 2)).toNat / 100),
      pad2 ((ratFloor (|q| * 100 + 1 / 2)).toNat % 100), ?_, pad2_length _⟩
    simp only [renderMarketItem, hq, fixed2]
    simp [String.append_assoc]

/-- C6: while the heartbeat interval is installed the client sends a ping
on every 20-second tick (consecutive ticks are 20000 ms apart) and
schedules the silence check; a firing check that finds more than 30000 ms
without any received message closes the socket; and processing the close
event stops both heartbeat timers. -/
theorem heartbeat_ping_check_close_spec :
    (∀ t0 k, hbTickTime t0 (k + 1) = hbTickTime t0 k + 20000) ∧
    (∀ s t, s.intervalOn = true →
      heartbeatStep s (.tick t) = ({ s with checkAt := some (t + 30000) }, [HbAction.ping])) ∧
    (∀ s t, s.checkAt = some t → t - s.lastMessageTime > 30000 →
      heartbeatStep s (.check t) = ({ s with checkAt := none }, [HbAction.closeSocket])) ∧
    (∀ s, (heartbeatStep s .socketClosed).1.intervalOn = false ∧
      (heartbeatStep s .socketClosed).1.checkAt = none) := by
  refine ⟨?_, ?_, ?_, ?_⟩
  · intro t0 k
    simp only [hbTickTime]
    ring
  · intro s t h
    simp [heartbeatStep, h]
  · intro s t h1 h2
    simp [heartbeatStep, h1, h2]
  · intro s
    exact ⟨rfl, rfl⟩

theorem heartbeat_ping_check_close_spec_witness :
    heartbeatStep ⟨true, none, 0⟩ (.tick 20000) = (⟨true, some 50000, 0⟩, [HbAction.ping]) ∧
    heartbeatStep ⟨true, some 50000, 0⟩ (.check 50000) =
      (⟨true, none, 0⟩, [HbAction.closeSocket]) :=
  ⟨heartbeat_ping_check_close_spec.2.1 ⟨true, none, 0⟩ 20000 rfl,
   heartbeat_ping_check_close_spec.2.2.1 ⟨true, some 50000, 0⟩ 50000 rfl (by decide)⟩

/-- C9: if a market socket already exists in the OPEN or CONNECTING state,
`connectWebSocket` returns without changing anything and without
constructing a second WebSocket. -/
theorem connectWebSocket_idempotent_when_active (url : Option String) (g : WsGlobals)
    (rs : Nat) (hsock : g.marketSocket = some rs)
    (hactive : rs = WebSocket_OPEN ∨ rs = WebSocket_CONNECTING) :
    connectWebSocket url g = (g, 0) := by
  cases url with
  | none => rfl
  | some u =>
    simp only [connectWebSocket, hsock]
    rw [if_pos hactive]

theorem connectWebSocket_idempotent_when_active_witness :
    connectWebSocket (some "wss://example") ⟨some WebSocket_OPEN⟩ =
      (⟨some WebSocket_OPEN⟩, 0) :=
  connectWebSocket_idempotent_when_active (some "wss://example") ⟨some WebSocket_OPEN⟩
    WebSocket_OPEN rfl (Or.inl rfl)

/-- C10 counterexample: both cited copies of `initWebSocketIfConfigured`
falsify the claim on a config with a valid token and no ws_endpoint.  The
540-579/1468-1507 copy, with the user's WebSocket toggle unchecked,
performs only the "disabled" status report — no close action and no
disconnected report.  The 2500-2516 copy does close, but its complete
action list is just the close — that revision reports no disconnected
state (it has no status-reporting function at all). -/
theorem initWebSocket_unconfigured_cex :
    initWebSocketIfConfigured ⟨none, true⟩ false = [WsUiAction.statusA "disabled"] ∧
    initWebSocketIfConfiguredV3 ⟨none, true⟩ = [WsUiAction.closeWsA] := by
  decide

/-- C10 amended: neither copy of `initWebSocketIfConfigured` ever calls
`connectWebSocket` when the config reports an invalid token or provides no
ws_endpoint.  In those cases the 2500-2516 copy always closes any existing
socket but reports no state at all; the 540-579/1468-1507 copy closes the
socket and reports the disconnected state when the token is invalid, and
likewise when the endpoint is missing with the user's WebSocket toggle
enabled, but with the toggle unchecked (token valid) it only reports the
disabled state and leaves any existing socket open. -/
theorem initWebSocket_no_connect_when_unconfigured (cfg : WsConfig) (enabled : Bool)
    (h : cfg.access_token_valid = false ∨ wsUrlOf cfg = none) :
    (∀ u, WsUiAction.connectA u ∉ initWebSocketIfConfigured cfg enabled) ∧
    (∀ u, WsUiAction.connectA u ∉ initWebSocketIfConfiguredV3 cfg) ∧
    WsUiAction.closeWsA ∈ initWebSocketIfConfiguredV3 cfg ∧
    (∀ st, WsUiAction.statusA st ∉ initWebSocketIfConfiguredV3 cfg) ∧
    (cfg.access_token_valid = false →
      WsUiAction.closeWsA ∈ initWebSocketIfConfigured cfg enabled ∧
      WsUiAction.statusA "disconnected" ∈ initWebSocketIfConfigured cfg enabled) ∧
    (cfg.access_token_valid = true → enabled = true →
      WsUiAction.closeWsA ∈ initWebSocketIfConfigured cfg enabled ∧
      WsUiAction.statusA "disconnected" ∈ initWebSocketIfConfigured cfg enabled) := by
  have hv3 : initWebSocketIfConfiguredV3 cfg = [WsUiAction.closeWsA] := by
    unfold initWebSocketIfConfiguredV3
    rcases h with h | h
    · cases hu : wsUrlOf cfg <;> simp [hu, h]
    · simp [h]
  have h12 :
      (∀ u, WsUiAction.connectA u ∉ initWebSocketIfConfigured cfg enabled) ∧
      (cfg.access_token_valid = false →
        WsUiAction.closeWsA ∈ initWebSocketIfConfigured cfg enabled ∧
        WsUiAction.statusA "disconnected" ∈ initWebSocketIfConfigured cfg enabled) ∧
      (cfg.access_token_valid = true → enabled = true →
        WsUiAction.closeWsA ∈ initWebSocketIfConfigured cfg enabled ∧
        WsUiAction.statusA "disconnected" ∈ initWebSocketIfConfigured cfg enabled) := by
    cases htok : cfg.access_token_valid with
    | false =>
      refine ⟨?_, ?_, ?_⟩
      · intro u
        simp [initWebSocketIfConfigured, htok]
      · intro _
        simp [initWebSocketIfConfigured, htok]
      · intro hcontra
        simp at hcontra
    | true =>
      have hurl : wsUrlOf cfg = none := by
        rcases h with h | h
        · rw [htok] at h
          cases h
        · exact h
      cases enabled with
      | false =>
        refine ⟨?_, ?_, ?_⟩
        · intro u
          simp [initWebSocketIfConfigured, htok, hurl]
        · intro hcontra
          simp at hcontra
        · intro _ hcontra
          simp at hcontra
      | true =>
        refine ⟨?_, ?_, ?_⟩
        · intro u
          simp [initWebSocketIfConfigured, htok, hurl]
        · intro hcontra
          simp at hcontra
        · intro _ _
          simp [initWebSocketIfConfigured, htok, hurl]
  exact ⟨h12.1, fun u => by simp [hv3], by simp [hv3], fun st => by simp [hv3],
    h12.2.1, h12.2.2⟩

theorem initWebSocket_no_connect_when_unconfigured_witness :
    WsUiAction.closeWsA ∈ initWebSocketIfConfigured ⟨some "wss://example", false⟩ true ∧
    WsUiAction.statusA "disconnected" ∈
      initWebSocketIfConfigured ⟨some "wss://example", false⟩ true ∧
    WsUiAction.closeWsA ∈ initWebSocketIfConfiguredV3 ⟨some "wss://example", false⟩ := by
  have h := initWebSocket_no_connect_when_unconfigured ⟨some "wss://example", false⟩ true
    (Or.inl rfl)
  exact ⟨(h.2.2.2.2.1 rfl).1, (h.2.2.2.2.1 rfl).2, h.2.2.1⟩

theorem watchlist_refresh_requests_no_symbol_list_witness :
    refreshWatchlistRequest.symbolsQuery = [] ∧
    (fetchWatchlistTabRequest "nifty50").symbolsQuery = [] :=
  ⟨(watchlist_refresh_requests_no_symbol_list "nifty50" ["TCS"]).1,
   (watchlist_refresh_requests_no_symbol_list "nifty50" ["TCS"]).2.1⟩

theorem renderMarketItem_format_spec_witness :
    (renderMarketItem ⟨"NIFTY50", some 12, some 2⟩).changeClass = "positive" ∧
    (∃ r, (renderMarketItem ⟨"NIFTY50", some 12, some 2⟩).changeText = "+" ++ r) ∧
    (∃ intPart frac,
      (renderMarketItem ⟨"NIFTY50", some 12, some 2⟩).priceText =
        "$" ++ intPart ++ "." ++ frac ∧ frac.length = 2) := by
  have h := renderMarketItem_format_spec ⟨"NIFTY50", some 12, some 2⟩
  exact ⟨h.2.1.mpr (by decide), h.2.2.2.2.1 (by decide), h.2.2.2.2.2 12 rfl⟩
